import Mathlib

/-!
Shallow embedding of the appwha photo-triage core: the persisted gallery
store (`src/lib/store/galleryStore.ts`), the review orchestration of the
gallery screen (`handleSwipeRight` / `handleSwipeLeft` / `moveToNext`), the
swipe decision logic (`src/components/molecules/SwipeCard.tsx` together
with `useSwipeLogic`), the export gate
(`src/lib/modules/gallery/useSaveToGallery.ts`), the storage layer with its
mock fallback, and the listener fan-out registry.

Platform primitives (`AsyncStorage`, `JSON.parse`/`JSON.stringify`,
`expo-media-library`, `Date.now`, `Math.random`) are external
collaborators; each is modelled as an explicit input: a per-call outcome
(`Except Unit _` for a promise that either resolves or rejects) or an
oracle value passed as an argument.  Asynchronous code is sequential on a
single event loop in the source, so each handler is embedded as a plain
function from its inputs (including the oracle outcomes of the awaited
calls it performs) to its resulting state and emitted effects.
-/

namespace Appwha

/-- `Photo` record from `galleryStore.ts`: `{id, uri, timestamp}`. -/
structure Photo where
  id : String
  uri : String
  timestamp : Nat
deriving DecidableEq, Repr

/-- Storage key from `galleryStore.ts`. -/
def STORAGE_KEY : String := "@appwha_gallery"

/-- The `Date.now()`/`Math.random()` based id of `addPhoto`:
`` `photo-${Date.now()}-${Math.random()}` ``.  `now` is the millisecond
clock reading, `rand` the string form of the `Math.random()` value (an
arbitrary string: values below `1e-6` stringify in exponential notation
such as `1e-7`, so the string may itself contain a dash). -/
def mkPhotoId (now : Nat) (rand : String) : String :=
  "photo-" ++ toString now ++ "-" ++ rand

/-- `addPhoto` from `galleryStore.ts`: builds a new `Photo` (the id from
one `Date.now()` reading `nowId` and the `Math.random()` string `rand`,
the timestamp from a second `Date.now()` reading `nowTs`) and prepends it
to the global array.  The source function returns `void`; the new global
array is the whole result. -/
def addPhoto (uri : String) (nowId : Nat) (rand : String) (nowTs : Nat)
    (globalPhotos : List Photo) : List Photo :=
  { id := mkPhotoId nowId rand, uri := uri, timestamp := nowTs } :: globalPhotos

/-- `removePhoto` from `galleryStore.ts`:
`globalPhotos.filter ((p) => p.id !== id)`. -/
def removePhoto (id : String) (globalPhotos : List Photo) : List Photo :=
  globalPhotos.filter (fun p => p.id ≠ id)

/-- One oracle entry per `addPhoto` call: its argument and the values the
platform clock and RNG produced during the call. -/
structure AddCall where
  uri : String
  nowId : Nat
  rand : String
  nowTs : Nat

/-- A sequence of `addPhoto` calls applied in order to a starting array. -/
def runAdds : List AddCall → List Photo → List Photo
  | [], ps => ps
  | c :: rest, ps => runAdds rest (addPhoto c.uri c.nowId c.rand c.nowTs ps)

/-! ## Review orchestration (gallery screen) -/

/-- The `ViewMode` union type of the gallery screen. -/
inductive ViewMode where
  | swipe
  | grid
deriving DecidableEq, Repr

/-- The review state of the gallery screen: the photo array the screen
reads from the store, the `currentIndex` state, and the `viewMode` state. -/
structure ReviewState where
  photos : List Photo
  currentIndex : Nat
  viewMode : ViewMode
deriving DecidableEq, Repr

/-- `const currentPhoto = photos[currentIndex]` (out-of-range indexing
yields `undefined`, modelled as `none`). -/
def currentPhoto (s : ReviewState) : Option Photo :=
  s.photos.get? s.currentIndex

/-- `moveToNext` from the gallery screen: advance `currentIndex` if a
later photo exists in the (unchanged) array, otherwise switch to grid
view and reset the index.  In JavaScript `currentIndex < photos.length - 1`
on an empty array compares against `-1` and is false; with truncated `Nat`
subtraction the comparison is `i < 0`, false as well, so the branches
agree for every state. -/
def moveToNext (s : ReviewState) : ReviewState :=
  if s.currentIndex < s.photos.length - 1 then
    { s with currentIndex := s.currentIndex + 1 }
  else
    { s with viewMode := ViewMode.grid, currentIndex := 0 }

/-- `handleSwipeRight` from the gallery screen: if a current photo
exists, `await saveToGallery(currentPhoto.uri)` (the emitted export
request is returned as the second component), then `moveToNext()`.  The
photo array is not modified. -/
def handleSwipeRight (s : ReviewState) : ReviewState × List String :=
  match currentPhoto s with
  | some p => (moveToNext s, [p.uri])
  | none => (moveToNext s, [])

/-- `handleSwipeLeft` from the gallery screen: `removePhoto` on the
current photo, then branch on the STALE pre-removal snapshot (`photos`
and `currentIndex` are the values captured by the render closure; the
store update only reaches the component on the next render): if the
snapshot had exactly one photo, grid view at index 0, otherwise
`moveToNext()` computed on the stale snapshot. -/
def handleSwipeLeft (s : ReviewState) : ReviewState :=
  let photos' :=
    match currentPhoto s with
    | some p => removePhoto p.id s.photos
    | none => s.photos
  if s.photos.length = 1 then
    { photos := photos', currentIndex := 0, viewMode := ViewMode.grid }
  else
    let m := moveToNext s
    { photos := photos', currentIndex := m.currentIndex, viewMode := m.viewMode }

/-! ## Swipe decision logic (`SwipeCard.tsx` / `useSwipeLogic.ts`) -/

/-- `SWIPE_THRESHOLD` from `useSwipeLogic.ts`. -/
def SWIPE_THRESHOLD : ℚ := 100

/-- Outcome of a gesture release in `onPanResponderRelease`. -/
inductive ReleaseAction where
  | commitRight
  | commitLeft
  | returnToOrigin
deriving DecidableEq, Repr

/-- The release branch of `SwipeCard.tsx`:
`if (gesture.vx > 0.5 || gesture.dx > SWIPE_THRESHOLD) dismissRight(onSwipeRight);
else if (gesture.vx < -0.5 || gesture.dx < -SWIPE_THRESHOLD) dismissLeft(onSwipeLeft);
else resetPosition();`. -/
def onPanResponderRelease (dx vx : ℚ) : ReleaseAction :=
  if vx > 0.5 ∨ dx > SWIPE_THRESHOLD then ReleaseAction.commitRight
  else if vx < -0.5 ∨ dx < -SWIPE_THRESHOLD then ReleaseAction.commitLeft
  else ReleaseAction.returnToOrigin

/-- The two terminal callbacks a `SwipeCard` can receive. -/
inductive TerminalCallback where
  | onSwipeLeft
  | onSwipeRight
deriving DecidableEq, Repr

/-- Terminal callbacks invoked during one gesture cycle, from
`useSwipeLogic.ts`: `dismissRight(cb)` / `dismissLeft(cb)` run one
`Animated.timing(...).start(...)` whose completion handler runs once
and calls `cb()` once; `resetPosition()` starts spring animations with
no completion callback, so no terminal callback runs. -/
def firedCallbacks : ReleaseAction → List TerminalCallback
  | ReleaseAction.commitRight => [TerminalCallback.onSwipeRight]
  | ReleaseAction.commitLeft => [TerminalCallback.onSwipeLeft]
  | ReleaseAction.returnToOrigin => []

/-- One full gesture cycle on the gallery screen: the release decision
of `SwipeCard` followed by the terminal handler the screen supplied for
that direction (`onSwipeRight := handleSwipeRight`,
`onSwipeLeft := handleSwipeLeft`).  The second component collects the
uris passed to the export gate during the cycle. -/
def gestureCycle (dx vx : ℚ) (s : ReviewState) : ReviewState × List String :=
  match onPanResponderRelease dx vx with
  | ReleaseAction.commitRight => handleSwipeRight s
  | ReleaseAction.commitLeft => (handleSwipeLeft s, [])
  | ReleaseAction.returnToOrigin => (s, [])

/-! ## Storage layer (`AsyncStorage` and its mock fallback) -/

/-- One-call behaviour of an `AsyncStorage`-shaped provider.  `getItem`
resolves to `some s` (a stored string), to `none` (JavaScript `null`), or
rejects (`Except.error`); `setItem` resolves or rejects. -/
structure StorageProvider where
  getItem : String → Except Unit (Option String)
  setItem : String → String → Except Unit Unit

/-- The mock provider substituted in `galleryStore.ts` when
`require('@react-native-async-storage/async-storage')` throws:
`setItem` logs and discards the value, `getItem` always resolves `null`. -/
def mockAsyncStorage : StorageProvider where
  getItem := fun _ => Except.ok none
  setItem := fun _ _ => Except.ok ()

/-- The `try { require(...) } catch { mock }` module initialisation:
the platform module when it loads, otherwise the mock. -/
def resolveAsyncStorage : Option StorageProvider → StorageProvider
  | some platform => platform
  | none => mockAsyncStorage

/-- `savePhotosToStorage` from `galleryStore.ts`:
`try { await AsyncStorage.setItem(STORAGE_KEY, JSON.stringify(photos)) } catch {}`.
`stringify` is the `JSON.stringify` collaborator.  The `catch` swallows a
rejected write, so the call always resolves (`Except.ok`). -/
def savePhotosToStorage (p : StorageProvider) (stringify : List Photo → String)
    (photos : List Photo) : Except Unit Unit :=
  match p.setItem STORAGE_KEY (stringify photos) with
  | Except.ok _ => Except.ok ()
  | Except.error _ => Except.ok ()

/-- `loadPhotosFromStorage` from `galleryStore.ts`:
`try { const stored = await AsyncStorage.getItem(STORAGE_KEY);
return stored ? JSON.parse(stored) : []; } catch { return []; }`.
`parse s = none` models `JSON.parse(s)` throwing (malformed content);
the empty string is falsy in JavaScript, so it short-circuits to `[]`
without parsing. -/
def loadPhotosFromStorage (p : StorageProvider)
    (parse : String → Option (List Photo)) : List Photo :=
  match p.getItem STORAGE_KEY with
  | Except.error _ => []
  | Except.ok none => []
  | Except.ok (some stored) =>
    if stored = "" then []
    else
      match parse stored with
      | some ps => ps
      | none => []

/-- The `initializeApp` effect of `RootLayout` (`app/_layout.tsx`):
`await loadPhotosFromStorage()` — the resolved array is DISCARDED (never
assigned to the store), so the gallery store's global photo array is
returned unchanged. -/
def rootLayoutInitialize (p : StorageProvider)
    (parse : String → Option (List Photo)) (globalPhotos : List Photo) :
    List Photo :=
  let _ := loadPhotosFromStorage p parse
  globalPhotos

/-- The `initialize` effect of `useInitializeStore.ts`: it assigns the
loaded array to that module's OWN `globalPhotos` — a second, independent
module-level array that no component reads (nothing under `src` imports
this hook's state). -/
def useInitializeStoreHydrate (p : StorageProvider)
    (parse : String → Option (List Photo)) : List Photo :=
  loadPhotosFromStorage p parse

/-! ## Export gate (`useSaveToGallery.ts`) -/

/-- The `{ status, canAskAgain }` fields of an `expo-media-library`
permission response that `saveToGallery` reads. -/
structure PermissionResponse where
  status : String
  canAskAgain : Bool
deriving DecidableEq, Repr

/-- Per-call outcomes of the `expo-media-library` collaborator during one
`saveToGallery` invocation: each awaited platform call either resolves or
rejects. -/
structure MediaLibraryEnv where
  getPermissions : Except Unit PermissionResponse
  requestPermissions : Except Unit String
  saveToLibrary : String → Except Unit Unit

/-- `requestPermission` from `useSaveToGallery.ts`:
`try { const { status } = await MediaLibrary.requestPermissionsAsync(true);
return status === 'granted'; } catch { return false; }`. -/
def requestPermission (env : MediaLibraryEnv) : Bool :=
  match env.requestPermissions with
  | Except.ok st => st = "granted"
  | Except.error _ => false

/-- Result of one `saveToGallery` call: the returned boolean and whether
the `MediaLibrary.saveToLibraryAsync` copy step was reached. -/
structure SaveOutcome where
  result : Bool
  copyAttempted : Bool
deriving DecidableEq, Repr

/-- The copy step of `saveToGallery`:
`await MediaLibrary.saveToLibraryAsync(imageUri); return true;` — a
rejection is caught by the surrounding `try`/`catch`, which returns
`false`. -/
def performCopy (env : MediaLibraryEnv) (imageUri : String) : SaveOutcome :=
  match env.saveToLibrary imageUri with
  | Except.ok _ => { result := true, copyAttempted := true }
  | Except.error _ => { result := false, copyAttempted := true }

/-- `saveToGallery` from `useSaveToGallery.ts`: query write permission;
if not granted, re-request when `canAskAgain` allows it and fail
otherwise; perform the copy only with a granted permission; every
rejection of an awaited call is caught and becomes `false`.  The
function is total (`SaveOutcome`-valued): no exception reaches the
caller. -/
def saveToGallery (env : MediaLibraryEnv) (imageUri : String) : SaveOutcome :=
  match env.getPermissions with
  | Except.error _ => { result := false, copyAttempted := false }
  | Except.ok perm =>
    if perm.status ≠ "granted" then
      if perm.canAskAgain then
        if requestPermission env then performCopy env imageUri
        else { result := false, copyAttempted := false }
      else { result := false, copyAttempted := false }
    else performCopy env imageUri

/-! ## Listener fan-out registry (`galleryStore.ts` module state)

The registry is a JavaScript `Set` of callbacks, iterated by
`notifyListeners` with `listeners.forEach((listener) => listener())`.
Listeners are modelled by identifiers together with the effect their
invocation has on the registry itself (the gallery components'
listeners only call `setPhotos`, but `subscribe`/`unsubscribe` can run
inside a listener in general).  The `Set` is modelled as its insertion-
order element list without duplicates; ECMAScript `Set.prototype.forEach`
visits the live set in insertion order: entries deleted before being
visited are skipped and entries added during iteration are visited. -/

/-- Effect of invoking one listener on the registry. -/
inductive ListenerEffect where
  | pass
  | unsub (j : Nat)
  | sub (j : Nat)
deriving DecidableEq, Repr

/-- `Set.prototype.add`: appends in insertion order unless present. -/
def setAdd (l : List Nat) (j : Nat) : List Nat :=
  if j ∈ l then l else l ++ [j]

/-- `Set.prototype.delete`: removes the element, keeping the order of the
rest; deleting an absent element leaves the set unchanged. -/
def setDelete (l : List Nat) (j : Nat) : List Nat :=
  l.filter (fun x => x ≠ j)

/-- Apply one listener's effect to the registry. -/
def applyListenerEffect (l : List Nat) : ListenerEffect → List Nat
  | ListenerEffect.pass => l
  | ListenerEffect.unsub j => setDelete l j
  | ListenerEffect.sub j => setAdd l j

/-- Step-indexed `notifyListeners` (`listeners.forEach((l) => l())`):
at each step the first listener in insertion order that has not yet been
visited by this call runs and its effect is applied to the live set.
`fuel` bounds the number of steps observed (a listener chain that keeps
adding fresh listeners makes the JavaScript `forEach` run unboundedly).
Returns the final registry and the listeners invoked, in order. -/
def notifyListeners (behavior : Nat → ListenerEffect) :
    Nat → List Nat → List Nat → List Nat × List Nat
  | 0, cur, visited => (cur, visited)
  | fuel + 1, cur, visited =>
    match cur.find? (fun j => decide (j ∉ visited)) with
    | none => (cur, visited)
    | some j =>
      notifyListeners behavior fuel (applyListenerEffect cur (behavior j))
        (visited ++ [j])

/-! ## Concrete records used by the claim instances -/

/-- The photo produced by `addPhoto "file://a"` at clock 1 with
`Math.random()` printing `0.1`. -/
def photoA : Photo := { id := "photo-1-0.1", uri := "file://a", timestamp := 1 }

/-- Review state of the end-to-end scenario: `add("file://a")` then
`add("file://b")`, review starting at index 0 in swipe mode. -/
def scenarioStart : ReviewState :=
  { photos := addPhoto "file://b" 2 "0.2" 2 (addPhoto "file://a" 1 "0.1" 1 [])
    currentIndex := 0
    viewMode := ViewMode.swipe }

/-! ## Helper lemmas about `Nat.repr` (the decimal digits inside a photo id) -/

theorem toDigitsCore_succ_eq (b fuel n : Nat) (ds : List Char) :
    Nat.toDigitsCore b (fuel + 1) n ds =
      if n / b = 0 then Nat.digitChar (n % b) :: ds
      else Nat.toDigitsCore b fuel (n / b) (Nat.digitChar (n % b) :: ds) := rfl

theorem toDigitsCore_acc (n : Nat) : ∀ (fuel : Nat) (ds : List Char), n < fuel →
    Nat.toDigitsCore 10 fuel n ds = Nat.toDigits 10 n ++ ds := by
  induction n using Nat.strong_induction_on with
  | _ n ih =>
    intro fuel ds hfuel
    match fuel, hfuel with
    | fuel + 1, _ =>
      rw [Nat.toDigits, toDigitsCore_succ_eq, toDigitsCore_succ_eq]
      by_cases h : n / 10 = 0
      · simp [h]
      · have hne : n ≠ 0 := by omega
        have hlt : n / 10 < n := Nat.div_lt_self (by omega) (by omega)
        rw [if_neg h, if_neg h,
          ih (n / 10) hlt fuel _ (by omega),
          ih (n / 10) hlt n _ (by omega)]
        simp

theorem toDigits_of_small (n : Nat) (h : n / 10 = 0) :
    Nat.toDigits 10 n = [Nat.digitChar (n % 10)] := by
  rw [Nat.toDigits, toDigitsCore_succ_eq, if_pos h]

theorem toDigits_of_large (n : Nat) (h : n / 10 ≠ 0) :
    Nat.toDigits 10 n = Nat.toDigits 10 (n / 10) ++ [Nat.digitChar (n % 10)] := by
  have hlt : n / 10 < n := Nat.div_lt_self (by omega) (by omega)
  rw [Nat.toDigits, toDigitsCore_succ_eq, if_neg h, toDigitsCore_acc (n / 10) n _ hlt]

theorem toDigits_ne_nil (n : Nat) : Nat.toDigits 10 n ≠ [] := by
  by_cases h : n / 10 = 0
  · rw [toDigits_of_small n h]; simp
  · rw [toDigits_of_large n h]; simp

theorem digitChar_ne_dash (n : Nat) (h : n < 10) : Nat.digitChar n ≠ '-' := by
  interval_cases n <;> decide

theorem digitChar_inj_lt (a b : Nat) (ha : a < 10) (hb : b < 10)
    (h : Nat.digitChar a = Nat.digitChar b) : a = b := by
  interval_cases a <;> interval_cases b <;> first | rfl | exact absurd h (by decide)

theorem toDigits_no_dash (n : Nat) : ∀ c ∈ Nat.toDigits 10 n, c ≠ '-' := by
  induction n using Nat.strong_induction_on with
  | _ n ih =>
    by_cases h : n / 10 = 0
    · rw [toDigits_of_small n h]
      intro c hc
      rw [List.mem_singleton] at hc
      subst hc
      exact digitChar_ne_dash _ (Nat.mod_lt _ (by omega))
    · rw [toDigits_of_large n h]
      intro c hc
      rcases List.mem_append.1 hc with h1 | h2
      · exact ih (n / 10) (Nat.div_lt_self (by omega) (by omega)) c h1
      · rw [List.mem_singleton] at h2
        subst h2
        exact digitChar_ne_dash _ (Nat.mod_lt _ (by omega))

theorem toDigits_inj (n : Nat) : ∀ m, Nat.toDigits 10 n = Nat.toDigits 10 m → n = m := by
  induction n using Nat.strong_induction_on with
  | _ n ih =>
    intro m h
    by_cases hn : n / 10 = 0 <;> by_cases hm : m / 10 = 0
    · rw [toDigits_of_small n hn, toDigits_of_small m hm] at h
      have h1 := digitChar_inj_lt (n % 10) (m % 10)
        (Nat.mod_lt _ (by omega)) (Nat.mod_lt _ (by omega)) (List.singleton_inj.1 h)
      omega
    · rw [toDigits_of_small n hn, toDigits_of_large m hm] at h
      have hlen := congrArg List.length h
      simp at hlen
      exact absurd hlen (toDigits_ne_nil (m / 10))
    · rw [toDigits_of_large n hn, toDigits_of_small m hm] at h
      have hlen := congrArg List.length h
      simp at hlen
      exact absurd hlen (toDigits_ne_nil (n / 10))
    · rw [toDigits_of_large n hn, toDigits_of_large m hm] at h
      obtain ⟨h1, h2⟩ := List.append_inj' h (by simp)
      have hdiv := ih (n / 10) (Nat.div_lt_self (by omega) (by omega)) (m / 10) h1
      have hmod := digitChar_inj_lt (n % 10) (m % 10)
        (Nat.mod_lt _ (by omega)) (Nat.mod_lt _ (by omega)) (List.singleton_inj.1 h2)
      omega

theorem natRepr_inj (n m : Nat) (h : Nat.repr n = Nat.repr m) : n = m := by
  apply toDigits_inj
  have hd := congrArg String.data h
  simpa [Nat.repr, List.asString] using hd

theorem natRepr_no_dash (n : Nat) : '-' ∉ (Nat.repr n).data := by
  intro hmem
  have h : ('-' : Char) ∈ Nat.toDigits 10 n := by
    simpa [Nat.repr, List.asString] using hmem
  exact toDigits_no_dash n '-' h rfl

theorem append_dash_inj (a1 : List Char) : ∀ (a2 b1 b2 : List Char),
    '-' ∉ a1 → '-' ∉ a2 → a1 ++ '-' :: b1 = a2 ++ '-' :: b2 → a1 = a2 ∧ b1 = b2 := by
  induction a1 with
  | nil =>
    intro a2 b1 b2 _ h2 h
    cases a2 with
    | nil => simpa using h
    | cons x xs =>
      simp only [List.nil_append, List.cons_append, List.cons.injEq] at h
      exact absurd (h.1 ▸ List.mem_cons_self x xs) h2
  | cons x xs ih =>
    intro a2 b1 b2 h1 h2 h
    cases a2 with
    | nil =>
      simp only [List.nil_append, List.cons_append, List.cons.injEq] at h
      exact absurd (h.1 ▸ List.mem_cons_self x xs) h1
    | cons y ys =>
      simp only [List.cons_append, List.cons.injEq] at h
      obtain ⟨hxy, hrest⟩ := h
      obtain ⟨hx, hy⟩ := ih ys b1 b2 (fun hm => h1 (List.mem_cons_of_mem x hm))
        (fun hm => h2 (hxy ▸ List.mem_cons_of_mem y hm)) hrest
      exact ⟨by rw [hxy, hx], hy⟩

theorem toString_nat_eq (n : Nat) : toString n = Nat.repr n := rfl

theorem mkPhotoId_inj (n1 n2 : Nat) (r1 r2 : String)
    (h : mkPhotoId n1 r1 = mkPhotoId n2 r2) : n1 = n2 ∧ r1 = r2 := by
  have hd := congrArg String.data h
  simp only [mkPhotoId, String.data_append, toString_nat_eq, List.append_assoc] at hd
  have hd2 : (Nat.repr n1).data ++ '-' :: r1.data =
      (Nat.repr n2).data ++ '-' :: r2.data := by
    have hpref := List.append_cancel_left hd
    simpa using hpref
  obtain ⟨ha, hb⟩ := append_dash_inj _ _ _ _ (natRepr_no_dash n1) (natRepr_no_dash n2) hd2
  refine ⟨natRepr_inj n1 n2 ?_, ?_⟩
  · cases hr1 : Nat.repr n1
    all_goals cases hr2 : Nat.repr n2
    all_goals simp_all
  · cases r1
    cases r2
    simp_all

theorem runAdds_map_id (calls : List AddCall) : ∀ init : List Photo,
    (runAdds calls init).map Photo.id =
      (calls.map fun c => mkPhotoId c.nowId c.rand).reverse ++ init.map Photo.id := by
  induction calls with
  | nil => intro init; simp [runAdds]
  | cons c rest ih =>
    intro init
    simp [runAdds, ih, addPhoto]

/-! ## Helper lemma for the fan-out registry -/

theorem notifyListeners_all_pass (behavior : Nat → ListenerEffect)
    (hpass : ∀ k, behavior k = ListenerEffect.pass) :
    ∀ (rest pre : List Nat) (fuel : Nat), (pre ++ rest).Nodup → rest.length ≤ fuel →
      notifyListeners behavior fuel (pre ++ rest) pre = (pre ++ rest, pre ++ rest) := by
  intro rest
  induction rest with
  | nil =>
    intro pre fuel hnd hfuel
    cases fuel with
    | zero => simp [notifyListeners]
    | succ f =>
      rw [notifyListeners]
      rw [List.find?_eq_none.2 (by intro x hx; simp_all)]
      simp
  | cons r t ih =>
    intro pre fuel hnd hfuel
    cases fuel with
    | zero => simp at hfuel
    | succ f =>
      rw [notifyListeners]
      have hfind : (pre ++ r :: t).find? (fun j => decide (j ∉ pre)) = some r := by
        rw [List.find?_append]
        rw [List.find?_eq_none.2 (by intro x hx; simp_all)]
        have hr : r ∉ pre := by
          have := List.Nodup.not_mem ((List.nodup_middle).1 hnd)
          simp_all
        simp [List.find?_cons, hr]
      rw [hfind]
      simp only [hpass r, applyListenerEffect]
      have := ih (pre ++ [r]) f (by simpa using hnd) (by simpa using hfuel)
      simpa using this

/-! ## Helper lemmas for the export gate -/

theorem performCopy_spec (env : MediaLibraryEnv) (uri : String) :
    (performCopy env uri = ⟨true, true⟩ ∧ env.saveToLibrary uri = Except.ok ()) ∨
    (performCopy env uri = ⟨false, true⟩ ∧ env.saveToLibrary uri = Except.error ()) := by
  rw [performCopy]
  cases hl : env.saveToLibrary uri with
  | ok u => cases u; exact Or.inl ⟨rfl, rfl⟩
  | error e => cases e; exact Or.inr ⟨rfl, rfl⟩

theorem saveToGallery_paths (env : MediaLibraryEnv) (uri : String) :
    saveToGallery env uri = ⟨false, false⟩ ∨
    saveToGallery env uri = performCopy env uri := by
  cases hg : env.getPermissions with
  | error e => left; simp [saveToGallery, hg]
  | ok perm =>
    by_cases hs : perm.status ≠ "granted"
    · by_cases hca : perm.canAskAgain = true
      · by_cases hrp : requestPermission env = true
        · right; simp [saveToGallery, hg, hs, hca, hrp]
        · left; simp [saveToGallery, hg, hs, hca, hrp]
      · left; simp [saveToGallery, hg, hs, hca]
    · right; simp [saveToGallery, hg, hs]

/-! ## Claim theorems -/

/-- Claim C1, counterexample: the claim says a commit-right removes the
reviewed photo from the collection.  In the source `handleSwipeRight` only
calls `saveToGallery` and `moveToNext` — it never calls `removePhoto` — so
after the commit-right on the one-photo collection the reviewed photo is
still in the collection (even though the export gate was invoked with its
uri). -/
theorem swipeRight_keeps_photo :
    (handleSwipeRight ⟨[photoA], 0, ViewMode.swipe⟩).2 = ["file://a"] ∧
    photoA ∈ (handleSwipeRight ⟨[photoA], 0, ViewMode.swipe⟩).1.photos := by decide

/-- Claim C1, amended: for every commit-right gesture on a current photo,
the review orchestration invokes the Export Gate with that photo's uri
(exactly once) and then advances the cursor via `moveToNext`; the photo is
NOT removed — the collection is left unchanged. -/
theorem swipeRight_exports_and_advances (s : ReviewState) (p : Photo)
    (h : currentPhoto s = some p) :
    handleSwipeRight s = (moveToNext s, [p.uri]) ∧
    (handleSwipeRight s).1.photos = s.photos := by
  refine ⟨by simp [handleSwipeRight, h], ?_⟩
  simp only [handleSwipeRight, h]
  rw [moveToNext]
  split <;> rfl

/-- Claim C1, witness: the amended theorem applied to the concrete
one-photo review state. -/
theorem swipeRight_exports_and_advances_witness :
    handleSwipeRight ⟨[photoA], 0, ViewMode.swipe⟩ =
      (moveToNext ⟨[photoA], 0, ViewMode.swipe⟩, ["file://a"]) ∧
    (handleSwipeRight ⟨[photoA], 0, ViewMode.swipe⟩).1.photos = [photoA] :=
  swipeRight_exports_and_advances ⟨[photoA], 0, ViewMode.swipe⟩ photoA (by decide)

/-- Claim C2, code bug: at startup the photos persisted in durable
storage never reach the collection the store's consumers read.  With a
storage provider holding a well-formed one-photo array,
`loadPhotosFromStorage` does return that array — and the duplicate
`useInitializeStore` module would store it in its own unread array — but
`RootLayout`'s `initializeApp` discards the resolved value, so the
gallery store's global photo array stays empty. -/
theorem startup_hydration_discards_result :
    loadPhotosFromStorage ⟨fun _ => Except.ok (some "stored"), fun _ _ => Except.ok ()⟩
      (fun s => if s = "stored" then some [photoA] else none) = [photoA] ∧
    useInitializeStoreHydrate
      ⟨fun _ => Except.ok (some "stored"), fun _ _ => Except.ok ()⟩
      (fun s => if s = "stored" then some [photoA] else none) = [photoA] ∧
    rootLayoutInitialize ⟨fun _ => Except.ok (some "stored"), fun _ _ => Except.ok ()⟩
      (fun s => if s = "stored" then some [photoA] else none) [] = [] := by
  refine ⟨?_, ?_, rfl⟩ <;> rfl

/-- Claim C3: on release with horizontal displacement `dx` and velocity
`vx`, with threshold `T = SWIPE_THRESHOLD = 100` and `V = 0.5`: if
`vx > V` or `dx > T` the card commits right; otherwise if `vx < -V` or
`dx < -T` it commits left; otherwise it returns to origin and no terminal
callback fires.  In particular `dx = 150, vx = 0` commits right;
`dx = -150, vx = 0` commits left; `dx = 50, vx = 0` returns to origin
with no callback; `dx = 10, vx = 0.6` commits right. -/
theorem release_thresholds (dx vx : ℚ) :
    SWIPE_THRESHOLD = 100 ∧
    ((vx > 0.5 ∨ dx > SWIPE_THRESHOLD) →
      onPanResponderRelease dx vx = ReleaseAction.commitRight) ∧
    (¬(vx > 0.5 ∨ dx > SWIPE_THRESHOLD) → (vx < -0.5 ∨ dx < -SWIPE_THRESHOLD) →
      onPanResponderRelease dx vx = ReleaseAction.commitLeft) ∧
    (¬(vx > 0.5 ∨ dx > SWIPE_THRESHOLD) → ¬(vx < -0.5 ∨ dx < -SWIPE_THRESHOLD) →
      onPanResponderRelease dx vx = ReleaseAction.returnToOrigin ∧
        firedCallbacks (onPanResponderRelease dx vx) = []) ∧
    onPanResponderRelease 150 0 = ReleaseAction.commitRight ∧
    onPanResponderRelease (-150) 0 = ReleaseAction.commitLeft ∧
    (onPanResponderRelease 50 0 = ReleaseAction.returnToOrigin ∧
      firedCallbacks (onPanResponderRelease 50 0) = []) ∧
    onPanResponderRelease 10 0.6 = ReleaseAction.commitRight := by
  have h150 : onPanResponderRelease 150 0 = ReleaseAction.commitRight := by
    rw [onPanResponderRelease, if_pos] ; norm_num [SWIPE_THRESHOLD]
  have hm150 : onPanResponderRelease (-150) 0 = ReleaseAction.commitLeft := by
    rw [onPanResponderRelease, if_neg, if_pos] <;> norm_num [SWIPE_THRESHOLD]
  have h50 : onPanResponderRelease 50 0 = ReleaseAction.returnToOrigin := by
    rw [onPanResponderRelease, if_neg, if_neg] <;> norm_num [SWIPE_THRESHOLD]
  have h06 : onPanResponderRelease 10 0.6 = ReleaseAction.commitRight := by
    rw [onPanResponderRelease, if_pos] ; norm_num
  refine ⟨rfl, ?_, ?_, ?_, h150, hm150, ⟨h50, by rw [h50]; rfl⟩, h06⟩
  · intro h; rw [onPanResponderRelease, if_pos h]
  · intro h1 h2; rw [onPanResponderRelease, if_neg h1, if_pos h2]
  · intro h1 h2
    rw [onPanResponderRelease, if_neg h1, if_neg h2]
    exact ⟨rfl, rfl⟩

/-- Claim C3, witness: the threshold theorem applied at the concrete
releases `dx = 10, vx = 0.6` and `dx = 50, vx = 0`. -/
theorem release_thresholds_witness :
    onPanResponderRelease 10 0.6 = ReleaseAction.commitRight ∧
    onPanResponderRelease 50 0 = ReleaseAction.returnToOrigin :=
  ⟨(release_thresholds 10 0.6).2.1 (Or.inl (by norm_num)),
   ((release_thresholds 50 0).2.2.2.1 (by norm_num [SWIPE_THRESHOLD])
      (by norm_num [SWIPE_THRESHOLD])).1⟩

/-- Claim C4, counterexample: in the end-to-end scenario
(`add("file://a")`, `add("file://b")`, collection `[b, a]`, commit-left at
index 0) the source's `handleSwipeLeft` leaves the collection `[a]` and
view mode `swipe` as the claim says, but the cursor lands at index 1 (out
of bounds for the one-photo collection), not at index 0: `moveToNext`
increments the stale index instead of keeping it. -/
theorem commitLeft_scenario_cursor_moves :
    scenarioStart.photos.map Photo.uri = ["file://b", "file://a"] ∧
    handleSwipeLeft scenarioStart =
      ⟨[⟨"photo-1-0.1", "file://a", 1⟩], 1, ViewMode.swipe⟩ ∧
    (handleSwipeLeft scenarioStart).currentIndex ≠ 0 := by decide

/-- Claim C4, amended: when a commit-left removes a non-last photo (at
stale index `i` with at least one photo after it, pre-removal length not
1), the removed photo leaves the collection, the view mode stays `swipe`,
and the cursor moves to `i + 1` — not `i` — so the post-removal cursor
skips the photo now occupying index `i` (and can point one past the end);
in the concrete scenario the result is collection `[a]`, cursor 1, mode
`swipe`. -/
theorem commitLeft_nonlast_increments_cursor (s : ReviewState) (p : Photo)
    (hp : currentPhoto s = some p) (hlen : s.photos.length ≠ 1)
    (hidx : s.currentIndex < s.photos.length - 1) :
    handleSwipeLeft s =
      ⟨removePhoto p.id s.photos, s.currentIndex + 1, s.viewMode⟩ := by
  simp [handleSwipeLeft, hp, hlen, moveToNext, hidx]

/-- Claim C4, witness: the amended theorem applied to the end-to-end
scenario state. -/
theorem commitLeft_nonlast_increments_cursor_witness :
    handleSwipeLeft scenarioStart =
      ⟨removePhoto "photo-2-0.2" scenarioStart.photos, 1, ViewMode.swipe⟩ :=
  commitLeft_nonlast_increments_cursor scenarioStart ⟨"photo-2-0.2", "file://b", 2⟩
    (by decide) (by decide) (by decide)

/-- Claim C5: per completed gesture cycle at most one terminal callback
fires — exactly one on a commit, none on a return-to-origin, and never
both directions — and one commit-right cycle passes at most one uri to
the export side effect (`dismissRight` starts one animation whose
completion handler runs once, and `handleSwipeRight` calls
`saveToGallery` at most once). -/
theorem one_terminal_callback_per_cycle (dx vx : ℚ) (s : ReviewState) :
    (firedCallbacks (onPanResponderRelease dx vx)).length ≤ 1 ∧
    ((onPanResponderRelease dx vx = ReleaseAction.commitRight ∨
      onPanResponderRelease dx vx = ReleaseAction.commitLeft) →
      (firedCallbacks (onPanResponderRelease dx vx)).length = 1) ∧
    (onPanResponderRelease dx vx = ReleaseAction.returnToOrigin →
      firedCallbacks (onPanResponderRelease dx vx) = []) ∧
    ¬(TerminalCallback.onSwipeLeft ∈ firedCallbacks (onPanResponderRelease dx vx) ∧
      TerminalCallback.onSwipeRight ∈ firedCallbacks (onPanResponderRelease dx vx)) ∧
    (gestureCycle dx vx s).2.length ≤ 1 := by
  have hexp : (gestureCycle dx vx s).2.length ≤ 1 := by
    rw [gestureCycle]
    cases onPanResponderRelease dx vx with
    | commitRight =>
      rw [handleSwipeRight]
      cases currentPhoto s <;> simp
    | commitLeft => simp
    | returnToOrigin => simp
  cases h : onPanResponderRelease dx vx <;>
    simp_all [firedCallbacks]

/-- Claim C5, witness: the per-cycle theorem applied to a commit-right
release (`dx = 150`), a return-to-origin release (`dx = 50`), and the
concrete one-photo review state. -/
theorem one_terminal_callback_per_cycle_witness :
    (firedCallbacks (onPanResponderRelease 150 0)).length = 1 ∧
    firedCallbacks (onPanResponderRelease 50 0) = [] ∧
    (gestureCycle 150 0 ⟨[photoA], 0, ViewMode.swipe⟩).2.length ≤ 1 :=
  ⟨(one_terminal_callback_per_cycle 150 0 ⟨[photoA], 0, ViewMode.swipe⟩).2.1
      (Or.inl (by rw [onPanResponderRelease, if_pos] ; norm_num [SWIPE_THRESHOLD])),
   (one_terminal_callback_per_cycle 50 0 ⟨[photoA], 0, ViewMode.swipe⟩).2.2.1
      (by rw [onPanResponderRelease, if_neg, if_neg] <;> norm_num [SWIPE_THRESHOLD]),
   (one_terminal_callback_per_cycle 150 0 ⟨[photoA], 0, ViewMode.swipe⟩).2.2.2.2⟩

/-- Claim C6, counterexample: the claim says `notify()` invokes every
listener subscribed at the moment of the call (a stable snapshot).  The
source iterates the live `Set`: with listeners `[1, 2]` where listener 1
unsubscribes listener 2, listener 2 is subscribed at the moment of the
call yet is never invoked by it. -/
theorem notify_unsub_during_call_skips :
    (2 ∈ ([1, 2] : List Nat)) ∧
    (notifyListeners (fun k => if k = 1 then ListenerEffect.unsub 2 else ListenerEffect.pass)
        2 [1, 2] []).2 = [1] ∧
    2 ∉ (notifyListeners (fun k => if k = 1 then ListenerEffect.unsub 2 else ListenerEffect.pass)
        2 [1, 2] []).2 := by decide

/-- Claim C6, amended: `notifyListeners` iterates the live set, not a
snapshot: when no listener mutates the registry during the call, every
subscribed listener is invoked exactly once (in insertion order); a
listener added during the call IS invoked by that same call; and
unsubscribing an already-unsubscribed listener is a no-op (`setDelete` is
idempotent). -/
theorem notify_live_set_semantics (behavior : Nat → ListenerEffect)
    (cur : List Nat) (l : List Nat) (j : Nat) (fuel : Nat)
    (hpass : ∀ k, behavior k = ListenerEffect.pass)
    (hnd : cur.Nodup) (hfuel : cur.length ≤ fuel) :
    notifyListeners behavior fuel cur [] = (cur, cur) ∧
    setDelete (setDelete l j) j = setDelete l j ∧
    (notifyListeners (fun k => if k = 1 then ListenerEffect.sub 2 else ListenerEffect.pass)
        2 [1] []).2 = [1, 2] := by
  refine ⟨?_, ?_, by decide⟩
  · simpa using notifyListeners_all_pass behavior hpass cur [] fuel (by simpa using hnd) hfuel
  · simp [setDelete, List.filter_filter]

/-- Claim C6, witness: the amended theorem applied to the concrete
registry `[3, 5]` with non-mutating listeners and to a concrete double
unsubscribe. -/
theorem notify_live_set_semantics_witness :
    notifyListeners (fun _ => ListenerEffect.pass) 2 [3, 5] [] = ([3, 5], [3, 5]) ∧
    setDelete (setDelete [7] 7) 7 = setDelete [7] 7 :=
  ⟨(notify_live_set_semantics (fun _ => ListenerEffect.pass) [3, 5] [7] 7 2
      (fun _ => rfl) (by decide) (by decide)).1,
   (notify_live_set_semantics (fun _ => ListenerEffect.pass) [3, 5] [7] 7 2
      (fun _ => rfl) (by decide) (by decide)).2.1⟩

/-- Claim C7, counterexample: the claim says ids are pairwise distinct
for ALL sequences of `add` calls.  The id is
`` `photo-${Date.now()}-${Math.random()}` ``: two calls in which the
platform clock and RNG return the same values (`Date.now() = 5`,
`Math.random()` printing `0.5`) produce the identical id
`photo-5-0.5` twice. -/
theorem addPhoto_id_collision :
    ((runAdds [⟨"file://a", 5, "0.5", 5⟩, ⟨"file://b", 5, "0.5", 5⟩] []).map Photo.id =
      ["photo-5-0.5", "photo-5-0.5"]) ∧
    ¬ ((runAdds [⟨"file://a", 5, "0.5", 5⟩, ⟨"file://b", 5, "0.5", 5⟩] []).map
        Photo.id).Pairwise (· ≠ ·) := by decide

/-- Claim C7, amended: every `addPhoto` call prepends a new `Photo` built
from the generated id and current timestamp, so the first element of the
resulting collection carries the given uri (the source `addPhoto` returns
`void`, not the created record); and for any sequence of `add` calls the
resulting ids are pairwise distinct PROVIDED the generated
`(Date.now(), Math.random())` pairs are pairwise distinct: the decimal
digits of the `Date.now()` component contain no dash, so the dash that
follows them delimits the id unambiguously whatever the `Math.random()`
string is. -/
theorem addPhoto_prepends_and_ids_unique (calls : List AddCall)
    (hdist : calls.Pairwise (fun c c' => (c.nowId, c.rand) ≠ (c'.nowId, c'.rand))) :
    (∀ uri nowId rand nowTs ps, addPhoto uri nowId rand nowTs ps =
        ⟨mkPhotoId nowId rand, uri, nowTs⟩ :: ps ∧
      (addPhoto uri nowId rand nowTs ps).head?.map Photo.uri = some uri) ∧
    ((runAdds calls []).map Photo.id).Pairwise (· ≠ ·) := by
  refine ⟨fun uri nowId rand nowTs ps => ⟨rfl, rfl⟩, ?_⟩
  rw [runAdds_map_id]
  simp only [List.map_nil, List.append_nil]
  rw [List.pairwise_reverse, List.pairwise_map]
  refine hdist.imp_of_mem ?_
  intro c c' hc hc' hne heq
  obtain ⟨hn, hr⟩ := mkPhotoId_inj c'.nowId c.nowId c'.rand c.rand heq
  exact hne (by rw [hn, hr])

/-- Claim C7, witness: the amended theorem applied to two concrete `add`
calls with distinct clock/RNG pairs, one of whose `Math.random()` strings
is in exponential notation and itself contains a dash. -/
theorem addPhoto_prepends_and_ids_unique_witness :
    ((runAdds [⟨"file://a", 1, "1e-7", 1⟩, ⟨"file://b", 2, "0.2", 2⟩] []).map
      Photo.id).Pairwise (· ≠ ·) :=
  (addPhoto_prepends_and_ids_unique
    [⟨"file://a", 1, "1e-7", 1⟩, ⟨"file://b", 2, "0.2", 2⟩]
    (by decide)).2

/-- Claim C8: `saveToGallery(uri)` returns `false` without reaching the
copy step when write permission is not granted and the re-request is
disallowed (`canAskAgain = false`) or denied; it returns `true` only if
the `saveToLibraryAsync` copy resolved; and a rejection of the permission
query, the permission request, or the copy yields `false` (the embedding
is a total `SaveOutcome`-valued function: no exception reaches the
caller). -/
theorem saveToGallery_contract (env : MediaLibraryEnv) (uri : String)
    (perm : PermissionResponse) :
    (env.getPermissions = Except.ok perm → perm.status ≠ "granted" →
      perm.canAskAgain = false →
      saveToGallery env uri = ⟨false, false⟩) ∧
    (env.getPermissions = Except.ok perm → perm.status ≠ "granted" →
      perm.canAskAgain = true → requestPermission env = false →
      saveToGallery env uri = ⟨false, false⟩) ∧
    ((saveToGallery env uri).result = true →
      (saveToGallery env uri).copyAttempted = true ∧
        env.saveToLibrary uri = Except.ok ()) ∧
    (env.getPermissions = Except.error () → saveToGallery env uri = ⟨false, false⟩) ∧
    (env.saveToLibrary uri = Except.error () → (saveToGallery env uri).result = false) := by
  refine ⟨?_, ?_, ?_, ?_, ?_⟩
  · intro hg hs hc
    simp [saveToGallery, hg, hs, hc]
  · intro hg hs hc hr
    simp [saveToGallery, hg, hs, hc, hr]
  · intro hres
    rcases saveToGallery_paths env uri with hp | hp
    · rw [hp] at hres; simp at hres
    · rw [hp] at hres ⊢
      rcases performCopy_spec env uri with ⟨he, hl⟩ | ⟨he, hl⟩
      · rw [he]; exact ⟨rfl, hl⟩
      · rw [he] at hres; simp at hres
  · intro hg
    simp [saveToGallery, hg]
  · intro hl
    rcases saveToGallery_paths env uri with hp | hp
    · rw [hp]
    · rw [hp]
      rcases performCopy_spec env uri with ⟨he, hl2⟩ | ⟨he, hl2⟩
      · rw [hl] at hl2; cases hl2
      · rw [he]

/-- Claim C8, witness: the contract applied to a concrete environment
whose permission is denied with re-request disallowed, and to one whose
permission query rejects. -/
theorem saveToGallery_contract_witness :
    saveToGallery ⟨Except.ok ⟨"denied", false⟩, Except.ok "denied", fun _ => Except.ok ()⟩
      "file://a" = ⟨false, false⟩ ∧
    saveToGallery ⟨Except.error (), Except.ok "granted", fun _ => Except.ok ()⟩
      "file://a" = ⟨false, false⟩ :=
  ⟨(saveToGallery_contract ⟨Except.ok ⟨"denied", false⟩, Except.ok "denied",
      fun _ => Except.ok ()⟩ "file://a" ⟨"denied", false⟩).1 rfl (by decide) rfl,
   (saveToGallery_contract ⟨Except.error (), Except.ok "granted",
      fun _ => Except.ok ()⟩ "file://a" ⟨"denied", false⟩).2.2.2.1 rfl⟩

/-- Claim C9: `loadPhotosFromStorage` never raises: a rejected read, an
absent key (`null`), a falsy empty string, and malformed content
(`JSON.parse` throwing) all yield the empty collection, and a present
well-formed value yields the stored collection. -/
theorem load_never_raises (p : StorageProvider)
    (parse : String → Option (List Photo)) (s : String) (ps : List Photo) :
    (p.getItem STORAGE_KEY = Except.error () → loadPhotosFromStorage p parse = []) ∧
    (p.getItem STORAGE_KEY = Except.ok none → loadPhotosFromStorage p parse = []) ∧
    (p.getItem STORAGE_KEY = Except.ok (some s) → parse s = none →
      loadPhotosFromStorage p parse = []) ∧
    (p.getItem STORAGE_KEY = Except.ok (some "") → loadPhotosFromStorage p parse = []) ∧
    (p.getItem STORAGE_KEY = Except.ok (some s) → s ≠ "" → parse s = some ps →
      loadPhotosFromStorage p parse = ps) := by
  refine ⟨?_, ?_, ?_, ?_, ?_⟩
  · intro h; simp [loadPhotosFromStorage, h]
  · intro h; simp [loadPhotosFromStorage, h]
  · intro h hp
    by_cases hs : s = ""
    · simp [loadPhotosFromStorage, h, hs]
    · simp [loadPhotosFromStorage, h, hs, hp]
  · intro h; simp [loadPhotosFromStorage, h]
  · intro h hs hp
    simp [loadPhotosFromStorage, h, hs, hp]

/-- Claim C9, witness: the load theorem applied to a concrete provider
holding a well-formed one-photo value and to one holding malformed
content. -/
theorem load_never_raises_witness :
    loadPhotosFromStorage ⟨fun _ => Except.ok (some "enc"), fun _ _ => Except.ok ()⟩
      (fun t => if t = "enc" then some [photoA] else none) = [photoA] ∧
    loadPhotosFromStorage ⟨fun _ => Except.ok (some "bad"), fun _ _ => Except.ok ()⟩
      (fun _ => none) = [] :=
  ⟨(load_never_raises ⟨fun _ => Except.ok (some "enc"), fun _ _ => Except.ok ()⟩
      (fun t => if t = "enc" then some [photoA] else none) "enc" [photoA]).2.2.2.2
      rfl (by decide) (by decide),
   (load_never_raises ⟨fun _ => Except.ok (some "bad"), fun _ _ => Except.ok ()⟩
      (fun _ => none) "bad" []).2.2.1 rfl rfl⟩

/-- Claim C10: when the platform storage module cannot be loaded the
store substitutes the mock provider, whose `getItem` always resolves
`null` and whose `setItem` discards the value; under it every
`savePhotosToStorage` call resolves without surfacing an error (and
persists nothing) and every `loadPhotosFromStorage` call returns the
empty collection. -/
theorem mock_storage_stub (parse : String → Option (List Photo))
    (stringify : List Photo → String) (photos : List Photo) (key value : String) :
    resolveAsyncStorage none = mockAsyncStorage ∧
    mockAsyncStorage.getItem key = Except.ok none ∧
    mockAsyncStorage.setItem key value = Except.ok () ∧
    savePhotosToStorage (resolveAsyncStorage none) stringify photos = Except.ok () ∧
    loadPhotosFromStorage (resolveAsyncStorage none) parse = [] :=
  ⟨rfl, rfl, rfl, rfl, rfl⟩

end Appwha
